import Mathlib

/-
  Verification of the case-studies repository: a set of notebooks doing
  business analysis over small in-memory tables.  Numeric columns are
  embedded as rationals; each notebook's code cells become Lean
  definitions in their own namespace.
-/

namespace UnitEcon

/-- Assumption constants of 07_unit_economics.ipynb, cell `assumptions`. -/
structure Assumptions where
  inference_cost_per_1k_tokens : ℚ
  fine_tune_cost_per_1k_tokens : ℚ
  revenue_per_1k_tokens : ℚ
  support_cost_per_customer : ℚ
  customer_acquisition_cost : ℚ

def assumptions : Assumptions :=
  { inference_cost_per_1k_tokens := 0.001
  , fine_tune_cost_per_1k_tokens := 1.5
  , revenue_per_1k_tokens := 0.002
  , support_cost_per_customer := 200
  , customer_acquisition_cost := 400 }

/-- One row of the `cohorts` DataFrame of 07_unit_economics.ipynb. -/
structure CohortRow where
  name : String
  monthly_tokens : ℚ
  fine_tune_tokens : ℚ
  payment : ℚ
  churn : ℚ
  count : ℚ

def indieRow : CohortRow :=
  { name := "Indie", monthly_tokens := 500000, fine_tune_tokens := 0
  , payment := 0, churn := 0.10, count := 1000 }

def smbRow : CohortRow :=
  { name := "SMB", monthly_tokens := 10000000, fine_tune_tokens := 50000
  , payment := 1500, churn := 0.05, count := 200 }

def enterpriseRow : CohortRow :=
  { name := "Enterprise", monthly_tokens := 100000000, fine_tune_tokens := 500000
  , payment := 25000, churn := 0.02, count := 20 }

def cohorts : List CohortRow := [indieRow, smbRow, enterpriseRow]

/-- Result columns produced by `calculate_unit_economics` (a pd.Series). -/
structure EconResult where
  total_cost : ℚ
  margin : ℚ
  gross_margin_pct : ℚ

/-- Embedding of `calculate_unit_economics` from 07_unit_economics.ipynb. -/
def calculate_unit_economics (row : CohortRow) : EconResult :=
  let token_cost := (row.monthly_tokens / 1000) * assumptions.inference_cost_per_1k_tokens
  let fine_tune_cost := (row.fine_tune_tokens / 1000) * assumptions.fine_tune_cost_per_1k_tokens
  let support_cost := assumptions.support_cost_per_customer
  let total_cost := token_cost + fine_tune_cost + support_cost
  let margin := row.payment - total_cost
  let gross_margin_pct := if row.payment > 0 then (margin / row.payment) * 100 else 0
  { total_cost := total_cost, margin := margin, gross_margin_pct := gross_margin_pct }

end UnitEcon

namespace Tiering

/-- One row of the tier DataFrame of 03_product_tiering.ipynb: a tier name,
its hypothetical customer count and its monthly price in USD. -/
structure Tier where
  name : String
  Num_Customers : ℚ
  Price : ℚ

/-- Embedding of the `customers` / `pricing` dictionaries joined into the
DataFrame `df` of 03_product_tiering.ipynb. -/
def tiers : List Tier :=
  [ { name := "Starter", Num_Customers := 5000, Price := 10 }
  , { name := "Growth", Num_Customers := 1200, Price := 250 }
  , { name := "Pro", Num_Customers := 300, Price := 800 }
  , { name := "Enterprise", Num_Customers := 50, Price := 5000 } ]

/-- Column `df["Monthly_Revenue"] = df["Num_Customers"] * df["Price"]`. -/
def Monthly_Revenue (t : Tier) : ℚ := t.Num_Customers * t.Price

/-- Column `df["Annual_Revenue"] = df["Monthly_Revenue"] * 12`. -/
def Annual_Revenue (t : Tier) : ℚ := Monthly_Revenue t * 12

end Tiering

namespace RevenueModel

/-- Pricing assumption `price_input_per_million = 30` of part_004 (the
unit-economics and revenue-modeling notebook). -/
def price_input_per_million : ℚ := 30

def price_output_per_million : ℚ := 60

def cost_input_per_million : ℚ := 6

def cost_output_per_million : ℚ := 12

/-- Token split of the first code cell: 2:1 input:output over 3M tokens. -/
def input_tokens : ℚ := 2000000

def output_tokens : ℚ := 1000000

/-- `revenue = (input_tokens / 1_000_000) * price_input_per_million + (output_tokens / 1_000_000) * price_output_per_million`. -/
def revenue : ℚ :=
  (input_tokens / 1000000) * price_input_per_million +
    (output_tokens / 1000000) * price_output_per_million

/-- `cost = (input_tokens / 1_000_000) * cost_input_per_million + (output_tokens / 1_000_000) * cost_output_per_million`. -/
def cost : ℚ :=
  (input_tokens / 1000000) * cost_input_per_million +
    (output_tokens / 1000000) * cost_output_per_million

/-- `gross_margin = (revenue - cost) / revenue * 100`. -/
def gross_margin : ℚ := (revenue - cost) / revenue * 100

/-- `monthly_revenue_per_customer = ((2/3)*price_input_per_million + (1/3)*price_output_per_million) * 100`
from the second code cell (100M tokens per customer per month). -/
def monthly_revenue_per_customer : ℚ :=
  ((2/3) * price_input_per_million + (1/3) * price_output_per_million) * 100

/-- `annual_revenue = monthly_revenue_per_customer * 12 * 1000`. -/
def annual_revenue : ℚ := monthly_revenue_per_customer * 12 * 1000

end RevenueModel

namespace Profitability

/-- One raw customer row of the customer-profitability notebook, as built
by its data-setup cell before cleaning (columns of the `data` dict). -/
structure RawCustomer where
  Customer_ID : ℕ
  Segment : String
  Annual_Revenue : ℚ
  Gross_Margin : ℚ
  CAC : ℚ
  Retention_Years : ℕ

/-- pandas `Series.clip(lower=l)` on a single (non-NaN) entry. -/
def clipLower (lower x : ℚ) : ℚ := max lower x

/-- The cleaning step of the data-setup cell:
`df["Annual_Revenue"] = df["Annual_Revenue"].clip(lower=20000)` and
`df["CAC"] = df["CAC"].clip(lower=5000)`. -/
def setupCustomer (c : RawCustomer) : RawCustomer :=
  { c with Annual_Revenue := clipLower 20000 c.Annual_Revenue
         , CAC := clipLower 5000 c.CAC }

/-- numpy/pandas rounding of a rational to the nearest integer, ties to
even (the rounding used by `Series.round`). -/
def roundHalfEven (q : ℚ) : ℤ :=
  let f := ⌊q⌋
  if q - f < 1/2 then f
  else if q - f > 1/2 then f + 1
  else if f % 2 = 0 then f else f + 1

/-- pandas `.round(2)`: round to 2 decimal places. -/
def round2 (q : ℚ) : ℚ := (roundHalfEven (q * 100) : ℚ) / 100

/-- Column `df["CLTV"] = (df["Annual_Revenue"] * df["Gross_Margin"]) * df["Retention_Years"]`
followed by `df["CLTV"] = df["CLTV"].round(2)`. -/
def computeCLTV (c : RawCustomer) : ℚ :=
  round2 (c.Annual_Revenue * c.Gross_Margin * (c.Retention_Years : ℚ))

/-- A customer row after the derived columns are added.  The source
column `CLTV_CAC_Ratio` is embedded as the field `cltv_cac`. -/
structure ProfitRow where
  customer : RawCustomer
  CLTV : ℚ
  cltv_cac : ℚ

/-- Adds the derived columns of Sections 4 and 5 of the notebook:
`CLTV` and `CLTV_CAC_Ratio = (df["CLTV"] / df["CAC"]).round(2)`. -/
def addDerivedColumns (c : RawCustomer) : ProfitRow :=
  { customer := c
  , CLTV := computeCLTV c
  , cltv_cac := round2 (computeCLTV c / c.CAC) }

/-- The full row pipeline of the notebook: data-setup cleaning, then the
derived CLTV and ratio columns.  The plotting and groupby cells read the
table but never modify it. -/
def profitPipeline (raw : List RawCustomer) : List ProfitRow :=
  (raw.map setupCustomer).map addDerivedColumns

/-- A concrete raw customer used to instantiate universally quantified
theorems about the pipeline. -/
def sampleCustomer : RawCustomer :=
  { Customer_ID := 1, Segment := "Startup", Annual_Revenue := 100000
  , Gross_Margin := 0.75, CAC := 20000, Retention_Years := 3 }

end Profitability

namespace Profitability

/-- State of the global numpy random generator.  `np.random.seed(n)`
replaces it by a state that is a pure function of `n` alone. -/
structure NpRandomState where
  seedValue : ℕ

/-- Embedding of `np.random.seed`: the resulting generator state depends
only on the seed argument, never on the previous state. -/
def npSeed (n : ℕ) : NpRandomState := ⟨n⟩

/-- Embedding of a whole run of the customer-profitability notebook.
`gen` is the deterministic sampling routine that draws the 150
customer rows from a generator state (np.random.choice / normal /
uniform / randint reading the global generator); `_s` is the ambient
generator state when the run starts.  The data-setup cell executes
`np.random.seed(42)` before any draw, so the rows are drawn from
`npSeed 42` and `_s` is discarded. -/
def runProfitability (gen : NpRandomState → List RawCustomer)
    (_s : NpRandomState) : List ProfitRow :=
  profitPipeline (gen (npSeed 42))

end Profitability

namespace Defensive

/-- Kinds of defensive logic occurring in the notebooks' code: a
conditional guarding a division, or a lower-bound clamp on a column. -/
inductive Check where
  | divGuard (notebook guard : String)
  | clampLower (notebook column : String) (bound : ℚ)
deriving DecidableEq

/-- Catalogue of every piece of defensive logic appearing in the code
cells of the repository's notebooks: the `payment > 0` guard of
calculate_unit_economics in 07_unit_economics.ipynb, and the two
`clip(lower=...)` clamps of the customer-profitability data setup.
No other code cell conditions, clamps or validates a value. -/
def checks : List Check :=
  [ .divGuard "07_unit_economics" "payment > 0"
  , .clampLower "customer_profitability" "Annual_Revenue" 20000
  , .clampLower "customer_profitability" "CAC" 5000 ]

def isDivGuard : Check → Bool
  | .divGuard _ _ => true
  | .clampLower _ _ _ => false

def isClampLower : Check → Bool
  | .divGuard _ _ => false
  | .clampLower _ _ _ => true

/-- The Annual_Revenue clamp entry of the catalogue. -/
def revenueClamp : Check := .clampLower "customer_profitability" "Annual_Revenue" 20000

end Defensive

/-- A raw customer whose Annual_Revenue (10000) and CAC (1000) lie below
the clip bounds of the data-setup cell. -/
def lowValueCustomer : Profitability.RawCustomer :=
  { Customer_ID := 2, Segment := "Startup", Annual_Revenue := 10000
  , Gross_Margin := 0.7, CAC := 1000, Retention_Years := 2 }

namespace Effects

/-- Observable effect of running a notebook code cell: inline rendering
(a displayed table, a `plt.show()` chart or a `print`), or a file write
through `plt.savefig(path)`. -/
inductive Effect where
  | render
  | savefig (path : String)
deriving DecidableEq

def isFileWrite : Effect → Bool
  | .savefig _ => true
  | .render => false

/-- Effects of 03_product_tiering.ipynb: the displayed DataFrame `df`,
then `plt.savefig("../report/graphics/tiering_revenue.png")` followed by
`plt.show()`. -/
def productTieringEffects : List Effect :=
  [.render, .savefig "../report/graphics/tiering_revenue.png", .render]

/-- Effects of 07_unit_economics.ipynb: display of `cohorts`, display of
the joined table, the gross-margin bar chart, and the break-even print. -/
def unitEconomicsEffects : List Effect := [.render, .render, .render, .render]

/-- Effects of the customer-profitability notebook: four table previews
(`head`, summaries) and three `plt.show()` charts. -/
def profitabilityEffects : List Effect :=
  [.render, .render, .render, .render, .render, .render, .render]

/-- Effects of the claude-cost notebook (part_003): the prints and the
returned total of the `estimate_claude_cost(5, 2)` example call. -/
def claudeCostEffects : List Effect := [.render]

/-- Effects of the revenue-modeling notebook (part_004): the two printed
summaries. -/
def revenueModelEffects : List Effect := [.render, .render]

/-- Effects of the competitive-analysis notebook: the displayed
`pricing_df`. -/
def competitiveEffects : List Effect := [.render]

/-- Every code-bearing notebook of the repository paired with the effects
of its code cells; the remaining notebooks and documents are
markdown-only and run no code at all. -/
def notebookEffects : List (String × List Effect) :=
  [ ("03_product_tiering", productTieringEffects)
  , ("07_unit_economics", unitEconomicsEffects)
  , ("customer_profitability", profitabilityEffects)
  , ("claude_cost", claudeCostEffects)
  , ("revenue_model", revenueModelEffects)
  , ("competitive_analysis", competitiveEffects) ]

/-- True when some cell of the effect list writes a file. -/
def writesFile (effs : List Effect) : Bool := effs.any isFileWrite

end Effects

/-- C1: for every cohort row, calculate_unit_economics returns
total_cost = (monthly_tokens / 1000) * 0.001 + (fine_tune_tokens / 1000) * 1.5 + 200
and margin = payment - total_cost; on the three hard-coded cohorts the
total costs are 200.5, 285.0, 1050.0 and the margins -200.5, 1215.0, 23950.0. -/
theorem C1_unit_economics_formula :
    (∀ row : UnitEcon.CohortRow,
      (UnitEcon.calculate_unit_economics row).total_cost =
        (row.monthly_tokens / 1000) * 0.001 + (row.fine_tune_tokens / 1000) * 1.5 + 200 ∧
      (UnitEcon.calculate_unit_economics row).margin =
        row.payment - (UnitEcon.calculate_unit_economics row).total_cost) ∧
    UnitEcon.cohorts.map (fun r => (UnitEcon.calculate_unit_economics r).total_cost) =
      [200.5, 285.0, 1050.0] ∧
    UnitEcon.cohorts.map (fun r => (UnitEcon.calculate_unit_economics r).margin) =
      [-200.5, 1215.0, 23950.0] := by
  refine ⟨fun row => ⟨rfl, rfl⟩, ?_, ?_⟩ <;>
    norm_num [UnitEcon.cohorts, UnitEcon.calculate_unit_economics, UnitEcon.indieRow,
      UnitEcon.smbRow, UnitEcon.enterpriseRow, UnitEcon.assumptions]

/-- C2: in calculate_unit_economics the margin percentage is
(margin / payment) * 100 exactly when payment > 0 and 0 otherwise; every
row with payment = 0 yields gross_margin_pct = 0 (the guard keeps the
division from being reached), and the Indie cohort is such a row. -/
theorem C2_margin_pct_guard :
    (∀ row : UnitEcon.CohortRow,
      (UnitEcon.calculate_unit_economics row).gross_margin_pct =
        if row.payment > 0 then
          ((UnitEcon.calculate_unit_economics row).margin / row.payment) * 100
        else 0) ∧
    (∀ row : UnitEcon.CohortRow, row.payment = 0 →
      (UnitEcon.calculate_unit_economics row).gross_margin_pct = 0) ∧
    UnitEcon.indieRow.payment = 0 ∧
    (UnitEcon.calculate_unit_economics UnitEcon.indieRow).gross_margin_pct = 0 := by
  refine ⟨fun row => rfl, fun row h => ?_, rfl, ?_⟩
  · simp [UnitEcon.calculate_unit_economics, h]
  · simp [UnitEcon.calculate_unit_economics, UnitEcon.indieRow]

/-- C2 witness: the second conjunct of the guard theorem applied at the
concrete Indie cohort row, whose payment is 0. -/
theorem C2_margin_pct_guard_witness :
    (UnitEcon.calculate_unit_economics UnitEcon.indieRow).gross_margin_pct = 0 :=
  C2_margin_pct_guard.2.1 UnitEcon.indieRow rfl

/-- C7: for every tier row, Monthly_Revenue = Num_Customers * Price and
Annual_Revenue = Monthly_Revenue * 12; the four hard-coded tiers have
annual revenues 600000, 3600000, 2880000 and 3000000. -/
theorem C7_tier_revenue :
    (∀ t : Tiering.Tier,
      Tiering.Monthly_Revenue t = t.Num_Customers * t.Price ∧
      Tiering.Annual_Revenue t = Tiering.Monthly_Revenue t * 12) ∧
    Tiering.tiers.map Tiering.Annual_Revenue = [600000, 3600000, 2880000, 3000000] := by
  refine ⟨fun t => ⟨rfl, rfl⟩, ?_⟩
  norm_num [Tiering.tiers, Tiering.Annual_Revenue, Tiering.Monthly_Revenue]

/-- C10: with prices 30/60 dollars and compute costs 6/12 dollars per
million input/output tokens, on a 2:1 split of 3M tokens, revenue is
exactly 120, cost exactly 24, gross margin exactly 80 percent; with 1000
customers at 100M tokens/month, the annual revenue is exactly 48000000
dollars, i.e. 48.0M. -/
theorem C10_revenue_model_values :
    RevenueModel.revenue = 120 ∧
    RevenueModel.cost = 24 ∧
    RevenueModel.gross_margin = 80 ∧
    RevenueModel.annual_revenue = 48000000 := by
  refine ⟨?_, ?_, ?_, ?_⟩ <;>
    norm_num [RevenueModel.revenue, RevenueModel.cost, RevenueModel.gross_margin,
      RevenueModel.annual_revenue, RevenueModel.monthly_revenue_per_customer,
      RevenueModel.input_tokens, RevenueModel.output_tokens,
      RevenueModel.price_input_per_million, RevenueModel.price_output_per_million,
      RevenueModel.cost_input_per_million, RevenueModel.cost_output_per_million]

/-- C3: for every customer row produced by the customer-profitability
pipeline, CLTV equals (Annual_Revenue * Gross_Margin) * Retention_Years
rounded to 2 decimal places. -/
theorem C3_cltv_formula (raw : List Profitability.RawCustomer)
    (r : Profitability.ProfitRow) (hr : r ∈ Profitability.profitPipeline raw) :
    r.CLTV = Profitability.round2
      (r.customer.Annual_Revenue * r.customer.Gross_Margin *
        (r.customer.Retention_Years : ℚ)) := by
  simp only [Profitability.profitPipeline, List.mem_map] at hr
  obtain ⟨c, -, rfl⟩ := hr
  rfl

/-- C3 witness: the CLTV formula instantiated on the pipeline run over the
one-element table containing the sample customer. -/
theorem C3_cltv_formula_witness :
    (Profitability.addDerivedColumns
        (Profitability.setupCustomer Profitability.sampleCustomer)).CLTV =
      Profitability.round2
        ((Profitability.setupCustomer Profitability.sampleCustomer).Annual_Revenue *
          (Profitability.setupCustomer Profitability.sampleCustomer).Gross_Margin *
          ((Profitability.setupCustomer Profitability.sampleCustomer).Retention_Years : ℚ)) :=
  C3_cltv_formula [Profitability.sampleCustomer] _
    (by simp [Profitability.profitPipeline])

/-- C8: every row coming out of the customer-profitability pipeline — in
particular each of the 150 generated customers — satisfies
Annual_Revenue >= 20000 and CAC >= 5000 (established by the two clip
clamps of the data setup and never disturbed by the later column
computations), so the divisor CAC of the CLTV:CAC ratio is at least 5000
and in particular positive. -/
theorem C8_clip_invariant (raw : List Profitability.RawCustomer)
    (r : Profitability.ProfitRow) (hr : r ∈ Profitability.profitPipeline raw) :
    20000 ≤ r.customer.Annual_Revenue ∧ 5000 ≤ r.customer.CAC ∧
      0 < r.customer.CAC := by
  simp only [Profitability.profitPipeline, List.mem_map] at hr
  obtain ⟨c, ⟨c', -, rfl⟩, rfl⟩ := hr
  refine ⟨le_max_left _ _, le_max_left _ _, ?_⟩
  exact lt_of_lt_of_le (show (0 : ℚ) < 5000 by norm_num) (le_max_left _ _)

/-- C8 witness: the clip invariant instantiated on the pipeline run over
the one-element table containing the sample customer. -/
theorem C8_clip_invariant_witness :
    20000 ≤ (Profitability.addDerivedColumns
        (Profitability.setupCustomer Profitability.sampleCustomer)).customer.Annual_Revenue ∧
    5000 ≤ (Profitability.addDerivedColumns
        (Profitability.setupCustomer Profitability.sampleCustomer)).customer.CAC ∧
    0 < (Profitability.addDerivedColumns
        (Profitability.setupCustomer Profitability.sampleCustomer)).customer.CAC :=
  C8_clip_invariant [Profitability.sampleCustomer] _
    (by simp [Profitability.profitPipeline])

/-- C9: because the notebook seeds the generator with the constant 42
before generating its dataset, any two executions — whatever generator
states they start from — produce identical tables of CLTV values and
CLTV:CAC ratios: the run is a constant function of its starting state. -/
theorem C9_seeded_determinism
    (gen : Profitability.NpRandomState → List Profitability.RawCustomer)
    (s1 s2 : Profitability.NpRandomState) :
    Profitability.runProfitability gen s1 = Profitability.runProfitability gen s2 ∧
    Profitability.runProfitability gen s1 =
      Profitability.profitPipeline (gen (Profitability.npSeed 42)) :=
  ⟨rfl, rfl⟩

/-- C4 counterexample: divide-by-zero guards are not the only defensive
logic in the notebooks — the catalogue of defensive logic contains the
Annual_Revenue lower-bound clamp, which is not a divide guard, and that
clamp really alters out-of-range values (clip of 10000 at lower bound
20000 gives 20000). -/
theorem C4_counterexample :
    Defensive.revenueClamp ∈ Defensive.checks ∧
    Defensive.isDivGuard Defensive.revenueClamp = false ∧
    Profitability.clipLower 20000 10000 = 20000 ∧ (10000 : ℚ) ≠ 20000 := by
  refine ⟨List.mem_cons_of_mem _ (List.mem_cons_self _ _), rfl, ?_, by norm_num⟩
  norm_num [Profitability.clipLower]

/-- C4 amended: the defensive logic in the notebooks consists of the
`payment > 0` divide-by-zero guard of calculate_unit_economics and the
two `clip` lower-bound clamps of the customer-profitability data setup —
every catalogue entry is a divide guard or a lower-bound clamp, the
clamps are exactly what setupCustomer applies to Annual_Revenue and CAC,
and the guard is exactly what makes gross_margin_pct equal 0 for
non-positive payments. -/
theorem C4_defensive_inventory :
    (∀ c ∈ Defensive.checks,
      Defensive.isDivGuard c = true ∨ Defensive.isClampLower c = true) ∧
    (∀ x : Profitability.RawCustomer,
      (Profitability.setupCustomer x).Annual_Revenue =
        Profitability.clipLower 20000 x.Annual_Revenue ∧
      (Profitability.setupCustomer x).CAC = Profitability.clipLower 5000 x.CAC) ∧
    (∀ row : UnitEcon.CohortRow, ¬ row.payment > 0 →
      (UnitEcon.calculate_unit_economics row).gross_margin_pct = 0) := by
  refine ⟨?_, fun x => ⟨rfl, rfl⟩, fun row h => ?_⟩
  · intro c hc
    fin_cases hc <;> simp [Defensive.isDivGuard, Defensive.isClampLower]
  · simp [UnitEcon.calculate_unit_economics, h]

/-- C4 witness: the inventory theorem applied to the concrete
Annual_Revenue clamp entry of the catalogue and to the Indie cohort row,
whose payment is not positive. -/
theorem C4_defensive_inventory_witness :
    (Defensive.isDivGuard Defensive.revenueClamp = true ∨
      Defensive.isClampLower Defensive.revenueClamp = true) ∧
    (UnitEcon.calculate_unit_economics UnitEcon.indieRow).gross_margin_pct = 0 :=
  ⟨C4_defensive_inventory.1 Defensive.revenueClamp
      (List.mem_cons_of_mem _ (List.mem_cons_self _ _)),
    C4_defensive_inventory.2.2 UnitEcon.indieRow (by norm_num [UnitEcon.indieRow])⟩

/-- C6 counterexample: the tables are not left unvalidated — right after
the customer table is constructed, the data-setup cell adjusts field
values to satisfy range conditions: on a customer with Annual_Revenue
10000 and CAC 1000 the cleaning step raises them to the bounds 20000 and
5000, changing the row. -/
theorem C6_counterexample :
    Profitability.setupCustomer lowValueCustomer ≠ lowValueCustomer ∧
    (Profitability.setupCustomer lowValueCustomer).Annual_Revenue = 20000 ∧
    lowValueCustomer.Annual_Revenue = 10000 ∧
    (Profitability.setupCustomer lowValueCustomer).CAC = 5000 ∧
    lowValueCustomer.CAC = 1000 := by
  refine ⟨fun h => ?_, ?_, rfl, ?_, rfl⟩
  · have := congrArg Profitability.RawCustomer.Annual_Revenue h
    simp only [Profitability.setupCustomer, Profitability.clipLower,
      lowValueCustomer] at this
    norm_num at this
  · norm_num [Profitability.setupCustomer, Profitability.clipLower, lowValueCustomer]
  · norm_num [Profitability.setupCustomer, Profitability.clipLower, lowValueCustomer]

/-- C6 amended: the only validation or adjustment ever applied to the
in-memory tables is the data-setup cleaning of the customer-profitability
notebook, which clamps Annual_Revenue to at least 20000 and CAC to at
least 5000 and leaves every other field unchanged; after that cleaning,
no later operation of the pipeline modifies an existing field. -/
theorem C6_amended_only_setup_adjusts :
    (∀ c : Profitability.RawCustomer,
      (Profitability.setupCustomer c).Customer_ID = c.Customer_ID ∧
      (Profitability.setupCustomer c).Segment = c.Segment ∧
      (Profitability.setupCustomer c).Gross_Margin = c.Gross_Margin ∧
      (Profitability.setupCustomer c).Retention_Years = c.Retention_Years ∧
      (Profitability.setupCustomer c).Annual_Revenue = max 20000 c.Annual_Revenue ∧
      (Profitability.setupCustomer c).CAC = max 5000 c.CAC) ∧
    (∀ raw : List Profitability.RawCustomer,
      (Profitability.profitPipeline raw).map (fun r => r.customer) =
        raw.map Profitability.setupCustomer) := by
  refine ⟨fun c => ⟨rfl, rfl, rfl, rfl, rfl, rfl⟩, fun raw => ?_⟩
  simp [Profitability.profitPipeline, List.map_map, Function.comp_def,
    Profitability.addDerivedColumns]

/-- C5 counterexample: it is not true that no notebook writes a file —
03_product_tiering is in the catalogue and its plotting cell saves the
tiering-revenue chart to ../report/graphics/tiering_revenue.png. -/
theorem C5_counterexample :
    ("03_product_tiering", Effects.productTieringEffects) ∈ Effects.notebookEffects ∧
    Effects.writesFile Effects.productTieringEffects = true ∧
    Effects.Effect.savefig "../report/graphics/tiering_revenue.png" ∈
      Effects.productTieringEffects := by
  refine ⟨List.mem_cons_self _ _, rfl, ?_⟩
  exact List.mem_cons_of_mem _ (List.mem_cons_self _ _)

/-- C5 amended: the only persisted state any notebook creates is the
single PNG chart that 03_product_tiering saves to
../report/graphics/tiering_revenue.png; every other effect of every
notebook is inline rendering, and no notebook persists a table or any
other state. -/
theorem C5_amended_only_tiering_chart_written :
    ∀ p ∈ Effects.notebookEffects, ∀ e ∈ p.2, Effects.isFileWrite e = true →
      p.1 = "03_product_tiering" ∧
      e = Effects.Effect.savefig "../report/graphics/tiering_revenue.png" := by
  decide

/-- C5 witness: the amended theorem applied to the one file-writing
effect of the catalogue, the savefig of 03_product_tiering. -/
theorem C5_amended_only_tiering_chart_written_witness :
    "03_product_tiering" = "03_product_tiering" ∧
    Effects.Effect.savefig "../report/graphics/tiering_revenue.png" =
      Effects.Effect.savefig "../report/graphics/tiering_revenue.png" :=
  C5_amended_only_tiering_chart_written
    ("03_product_tiering", Effects.productTieringEffects)
    (List.mem_cons_self _ _)
    (Effects.Effect.savefig "../report/graphics/tiering_revenue.png")
    (List.mem_cons_of_mem _ (List.mem_cons_self _ _)) rfl

